import Mathlib

/-!
Verification development for the mood-journal sentiment application
(`src/app.py`).  The Python source is shallowly embedded: each Flask
handler becomes a total Lean function over an explicit environment that
supplies the outcomes of the external effects (the Hugging Face HTTP
call, the MongoDB connection, insert and find operations), and each
handler returns a record carrying the HTTP status, the JSON body, and an
effect trace (number of upstream classifier calls, number of database
connections opened and closed, the inserted document).  Numbers in JSON
payloads are modelled as rationals.
-/

set_option autoImplicit false

namespace MoodJournal

/-- JSON values as delivered by `response.json()` in `submit_entry`.
Numeric payload fields (the classifier confidences) are modelled as
rationals. -/
inductive JVal where
  | jstr (s : String)
  | jnum (q : ℚ)
  | jlist (xs : List JVal)
  | jobj (fields : List (String × JVal))

/-- One HTTP response from the Hugging Face endpoint: the status code,
the raw text (`response.text`) and the outcome of `response.json()`
(an `Except` because parsing the body can itself raise). -/
structure HFResp where
  status : Nat
  text : String
  body : Except String JVal

/-- Outcome of one `requests.post` call: either a response or a raised
transport exception (connection reset, timeout, ...). -/
inductive NetResult where
  | resp (r : HFResp)
  | transportError (msg : String)

/-- Environment of `submit_entry`: the configuration read from the
process environment and the outcomes of each external effect. `hfNet`
lists the successive outcomes the network would deliver for successive
`requests.post` calls, so that the number of upstream calls the handler
actually makes is observable. -/
structure SubmitEnv where
  hfApiKey : Option String
  mongoUri : Option String
  hfNet : List NetResult
  dbConnect : Except String Unit
  dbInsert : Except String Unit

/-- The document handed to `db.entries.insert_one` (the nondeterministic
`datetime.now()` timestamp field is left out of the model). -/
structure InsertedDoc where
  entry : String
  label : JVal
  score : ℚ

/-- A JSON response body produced by `submit_entry`: either
`jsonify({"error": msg})` or the success body
`jsonify({"result": result, "storage_status": s})`. -/
inductive RespBody where
  | errorMsg (msg : String)
  | classification (result : JVal) (storage_status : String)

/-- Observable outcome of one `submit_entry` request: HTTP status, JSON
body, and the effect trace. -/
structure SubmitOut where
  status : Nat
  body : RespBody
  hfCalls : Nat
  dbOpened : Nat
  dbClosed : Nat
  inserted : Option InsertedDoc

/-- Line 237 of `app.py`:
`if isinstance(result, list) and isinstance(result[0], list): result = result[0]`.
On an empty list the subscript `result[0]` raises `IndexError`; on a
non-list value the conjunction short-circuits and `result` is kept. -/
def unwrapResult : JVal → Except String JVal
  | .jlist [] => .error "IndexError: list index out of range"
  | .jlist (x :: xs) =>
    match x with
    | .jlist ys => .ok (.jlist ys)
    | _ => .ok (.jlist (x :: xs))
  | v => .ok v

/-- Python iteration over the value handed to `max` (line 240): a list
yields its elements, a dict yields its keys, a string yields its
characters, a number is not iterable and raises `TypeError`. -/
def pyIter : JVal → Except String (List JVal)
  | .jlist xs => .ok xs
  | .jobj fields => .ok (fields.map (fun p => JVal.jstr p.1))
  | .jstr s => .ok (s.data.map (fun c => JVal.jstr (String.singleton c)))
  | .jnum _ => .error "TypeError: object is not iterable"

/-- The key function of line 240, `lambda x: x['score']`: subscripting a
dict without the key raises `KeyError`, subscripting a non-dict raises
`TypeError`; a non-numeric score is modelled as the `TypeError` its
comparison inside `max` would raise. -/
def getScore : JVal → Except String ℚ
  | .jobj fields =>
    match List.lookup "score" fields with
    | some (.jnum q) => .ok q
    | some _ => .error "TypeError: unorderable score value"
    | none => .error "KeyError: score"
  | .jstr _ => .error "TypeError: string indices must be integers"
  | .jlist _ => .error "TypeError: list indices must be integers"
  | .jnum _ => .error "TypeError: value is not subscriptable"

/-- The subscript `dominant['label']` of line 241. -/
def getLabel : JVal → Except String JVal
  | .jobj fields =>
    match List.lookup "label" fields with
    | some v => .ok v
    | none => .error "KeyError: label"
  | .jstr _ => .error "TypeError: string indices must be integers"
  | .jlist _ => .error "TypeError: list indices must be integers"
  | .jnum _ => .error "TypeError: value is not subscriptable"

/-- Loop of CPython `max(iterable, key=f)` after the first element: the
running maximum is replaced only when a later key is strictly greater,
so on ties the earlier element is kept. -/
def pyMaxGo (f : JVal → Except String ℚ) (best : JVal) (bestKey : ℚ) :
    List JVal → Except String JVal
  | [] => .ok best
  | y :: ys =>
    match f y with
    | .error e => .error e
    | .ok fy => if bestKey < fy then pyMaxGo f y fy ys else pyMaxGo f best bestKey ys

/-- CPython `max(iterable, key=f)` (line 240): raises `ValueError` on an
empty iterable, otherwise scans left to right keeping the first element
whose key no later key strictly exceeds. -/
def pyMaxBy (f : JVal → Except String ℚ) : List JVal → Except String JVal
  | [] => .error "ValueError: max arg is an empty sequence"
  | x :: xs =>
    match f x with
    | .error e => .error e
    | .ok fx => pyMaxGo f x fx xs

/-- The comparison `label == 'POSITIVE'` of line 242, on the raw JSON
value found under the `label` key: true exactly on the string
`POSITIVE`, false on any other value. -/
def isPositiveLabel : JVal → Bool
  | .jstr s => s == "POSITIVE"
  | _ => false

/-- Lines 236-242 of `submit_entry` after a 200 response body has been
parsed: unwrap one level of nesting, pick the dominant element with
`max(..., key=lambda x: x['score'])`, read its label and its score.
Returns the (possibly unwrapped) result that the success body echoes,
the raw label value, and the dominant confidence; any raised exception
is the error. -/
def classifyPhase (body : JVal) : Except String (JVal × JVal × ℚ) := do
  let res ← unwrapResult body
  let xs ← pyIter res
  let dom ← pyMaxBy getScore xs
  let lab ← getLabel dom
  let conf ← getScore dom
  pure (res, lab, conf)

/-- The `/submit` handler (`submit_entry`, lines 221-268 of `app.py`).
Validation rejects only a falsy entry (absent or the empty string); the
single `requests.post` call consumes the head of `env.hfNet`; a non-200
status returns immediately with that status; exceptions raised while
parsing the payload, or a transport failure, fall to the blanket
`except` and come back as a generic 500; the MongoDB insert is attempted
only when `MONGO_URI` is set, and its failure is swallowed with
`storage_status = "not_stored"`.  `client.close()` runs only when the
insert succeeded, which the trace fields `dbOpened`/`dbClosed` record. -/
def submit_entry (env : SubmitEnv) (entry : Option String) : SubmitOut :=
  match entry with
  | none => ⟨400, .errorMsg "No entry provided", 0, 0, 0, none⟩
  | some s =>
    if s = "" then ⟨400, .errorMsg "No entry provided", 0, 0, 0, none⟩ else
    match env.hfApiKey with
    | none => ⟨500, .errorMsg "Hugging Face API key is missing", 0, 0, 0, none⟩
    | some _ =>
      match env.hfNet.head? with
      | none => ⟨500, .errorMsg "ConnectionError: no response", 1, 0, 0, none⟩
      | some (.transportError msg) => ⟨500, .errorMsg msg, 1, 0, 0, none⟩
      | some (.resp r) =>
        if r.status ≠ 200 then
          ⟨r.status, .errorMsg ("Hugging Face API error: " ++ r.text), 1, 0, 0, none⟩
        else
          match r.body with
          | .error e => ⟨500, .errorMsg e, 1, 0, 0, none⟩
          | .ok bv =>
            match classifyPhase bv with
            | .error e => ⟨500, .errorMsg e, 1, 0, 0, none⟩
            | .ok (res, lab, conf) =>
              let score : ℚ := if isPositiveLabel lab then conf else -conf
              match env.mongoUri with
              | none => ⟨200, .classification res "not_stored", 1, 0, 0, none⟩
              | some _ =>
                match env.dbConnect with
                | .error _ => ⟨200, .classification res "not_stored", 1, 0, 0, none⟩
                | .ok _ =>
                  match env.dbInsert with
                  | .error _ => ⟨200, .classification res "not_stored", 1, 1, 0, none⟩
                  | .ok _ =>
                    ⟨200, .classification res "stored", 1, 1, 1, some ⟨s, lab, score⟩⟩

/-- Result of the strategy loop of `get_db_connection` (lines 52-61):
the returned value or raised error, the warnings logged for failed
strategies, and how many strategies were invoked.  A strategy is
modelled by the outcome of calling it: `Except.ok c` when its handshake
and `admin.command("ping")` both succeed (yielding client `c`),
`Except.error reason` when either raises. -/
structure ConnectOut where
  result : Except String Nat
  log : List String
  tried : Nat

/-- The `for method in connection_methods` loop of `get_db_connection`:
return the first strategy that succeeds, log a warning and continue on
each failure, and raise a fixed-message `ConnectionError` when the list
is exhausted. -/
def connectLoop : List (Except String Nat) → ConnectOut
  | [] => ⟨.error "All connection methods failed", [], 0⟩
  | m :: rest =>
    match m with
    | .ok c => ⟨.ok c, [], 1⟩
    | .error e =>
      let out := connectLoop rest
      ⟨out.result, ("Connection method failed: " ++ e) :: out.log, out.tried + 1⟩

/-- The function `get_db_connection` (lines 41-61 of `app.py`): raises at once when
`MONGO_URI` is unset, otherwise runs the strategy loop over the four
connection methods, abstracted here as the list of their outcomes in
declared order. -/
def get_db_connection (mongoUri : Option String)
    (strategies : List (Except String Nat)) : ConnectOut :=
  match mongoUri with
  | none => ⟨.error "MongoDB URI not configured", [], 0⟩
  | some _ => connectLoop strategies

/-- Observable outcome of the `/health` handler: HTTP status, the
`status` and `database` JSON fields, and the connection trace. -/
structure HealthOut where
  httpStatus : Nat
  statusField : String
  databaseField : String
  dbOpened : Nat
  dbClosed : Nat

/-- The `/health` handler (`health_check`, lines 171-194 of `app.py`).
`dbConnect` is the outcome of `get_db_connection_retry()` and `dbStats`
that of `client.admin.command("dbstats")`.  With no `MONGO_URI` the
handler answers 200 with status `degraded`; on any raised exception it
answers 500 with status `unhealthy`; `client.close()` runs only after a
successful `dbstats`. -/
def health_check (mongoUri : Option String) (dbConnect : Except String Unit)
    (dbStats : Except String Unit) : HealthOut :=
  match mongoUri with
  | none => ⟨200, "degraded", "not_configured", 0, 0⟩
  | some _ =>
    match dbConnect with
    | .error _ => ⟨500, "unhealthy", "disconnected", 0, 0⟩
    | .ok _ =>
      match dbStats with
      | .error _ => ⟨500, "unhealthy", "disconnected", 1, 0⟩
      | .ok _ => ⟨200, "healthy", "connected", 1, 1⟩

/-- A timestamp as produced by `datetime.datetime.now()`, reduced to the
fields that `strftime("%Y-%m-%d %H:%M:%S")` prints; ordered
lexicographically field by field, which is how `datetime` values
compare. -/
structure Timestamp where
  year : Nat
  month : Nat
  day : Nat
  hour : Nat
  minute : Nat
  second : Nat

/-- The field list of a timestamp in comparison order. -/
def Timestamp.fieldList (t : Timestamp) : List Nat :=
  [t.year, t.month, t.day, t.hour, t.minute, t.second]

/-- Chronological order on timestamps: lexicographic on the field list. -/
def Timestamp.le (a b : Timestamp) : Prop :=
  a.fieldList ≤ b.fieldList

instance : DecidableRel Timestamp.le := fun a b =>
  inferInstanceAs (Decidable (a.fieldList ≤ b.fieldList))

/-- Zero-pad a numeral to two digits, as `strftime` does for
`%m %d %H %M %S`. -/
def pad2 (n : Nat) : String :=
  if n < 10 then "0" ++ toString n else toString n

/-- Zero-pad a numeral to four digits, as `strftime` does for `%Y`. -/
def pad4 (n : Nat) : String :=
  if n < 10 then "000" ++ toString n
  else if n < 100 then "00" ++ toString n
  else if n < 1000 then "0" ++ toString n
  else toString n

/-- The call `timestamp.strftime("%Y-%m-%d %H:%M:%S")` of line 280. -/
def strftimeYmdHMS (t : Timestamp) : String :=
  pad4 t.year ++ "-" ++ pad2 t.month ++ "-" ++ pad2 t.day ++ " " ++
    pad2 t.hour ++ ":" ++ pad2 t.minute ++ ":" ++ pad2 t.second

/-- One stored entry as projected by the `/entries` query
(`{"_id": 0, "timestamp": 1, "score": 1}`). -/
structure StoredRow where
  timestamp : Timestamp
  score : ℚ

/-- Row order used by `.sort("timestamp", 1)`: ascending timestamp. -/
def rowLe (a b : StoredRow) : Prop :=
  a.timestamp.le b.timestamp

instance : DecidableRel rowLe := fun a b =>
  inferInstanceAs (Decidable (a.timestamp.le b.timestamp))

/-- Environment of the `/entries` handler: configuration, the outcome of
`get_db_connection_retry()`, and the outcome of the `find` (the stored
rows in arbitrary store order, or a raised read error). -/
structure EntriesEnv where
  mongoUri : Option String
  dbConnect : Except String Unit
  dbFind : Except String (List StoredRow)

/-- JSON body of an `/entries` response. -/
inductive EntriesBody where
  | errorMsg (msg : String)
  | data (labels : List String) (scores : List ℚ) (count : Nat)

/-- Observable outcome of one `/entries` request. -/
structure EntriesOut where
  status : Nat
  body : EntriesBody
  dbOpened : Nat
  dbClosed : Nat

/-- The `/entries` handler (`get_entries`, lines 270-287 of `app.py`).
The Mongo `sort("timestamp", 1)` is embedded as an insertion sort by
ascending timestamp; `labels` holds the formatted timestamps and
`scores` the signed scores, in the same order.  `client.close()` runs
only when the read succeeded. -/
def get_entries (env : EntriesEnv) : EntriesOut :=
  match env.mongoUri with
  | none => ⟨400, .errorMsg "MongoDB not configured", 0, 0⟩
  | some _ =>
    match env.dbConnect with
    | .error e => ⟨500, .errorMsg e, 0, 0⟩
    | .ok _ =>
      match env.dbFind with
      | .error e => ⟨500, .errorMsg e, 1, 0⟩
      | .ok stored =>
        let rows := List.insertionSort rowLe stored
        ⟨200,
          .data (rows.map (fun r => strftimeYmdHMS r.timestamp))
            (rows.map StoredRow.score) rows.length,
          1, 1⟩

/-- A well-formed classifier pair `(label, confidence)` rendered as the
JSON object the Hugging Face service returns for it. -/
def toJPair (p : String × ℚ) : JVal :=
  .jobj [("label", .jstr p.1), ("score", .jnum p.2)]

/-- A flat, well-formed classifier response: a list of label/score
objects. -/
def toJList (ps : List (String × ℚ)) : JVal :=
  .jlist (ps.map toJPair)

/-- Pure counterpart of the CPython `max` loop on well-formed pairs:
the running best is replaced only by a strictly greater confidence. -/
def maxGoSpec (best : String × ℚ) : List (String × ℚ) → String × ℚ
  | [] => best
  | p :: ps => if best.2 < p.2 then maxGoSpec p ps else maxGoSpec best ps

theorem getScore_toJPair (p : String × ℚ) : getScore (toJPair p) = .ok p.2 := rfl

theorem getLabel_toJPair (p : String × ℚ) : getLabel (toJPair p) = .ok (.jstr p.1) := rfl

theorem pyMaxGo_toJPair (ps : List (String × ℚ)) (best : String × ℚ) :
    pyMaxGo getScore (toJPair best) best.2 (ps.map toJPair) =
      .ok (toJPair (maxGoSpec best ps)) := by
  induction ps generalizing best with
  | nil => rfl
  | cons p ps ih =>
    simp only [List.map, pyMaxGo, getScore_toJPair, maxGoSpec]
    by_cases h : best.2 < p.2
    · rw [if_pos h, if_pos h, ih p]
    · rw [if_neg h, if_neg h, ih best]

theorem pyMaxBy_toJPair (p : String × ℚ) (ps : List (String × ℚ)) :
    pyMaxBy getScore (toJPair p :: ps.map toJPair) = .ok (toJPair (maxGoSpec p ps)) := by
  simp only [pyMaxBy, getScore_toJPair]
  exact pyMaxGo_toJPair ps p

/-- On a flat well-formed response the classification phase succeeds,
echoes the response, and extracts the label and confidence of the
element the `max` loop keeps. -/
theorem classifyPhase_toJList (p : String × ℚ) (ps : List (String × ℚ)) :
    classifyPhase (toJList (p :: ps)) =
      .ok (toJList (p :: ps), .jstr (maxGoSpec p ps).1, (maxGoSpec p ps).2) := by
  have hunwrap : unwrapResult (toJList (p :: ps)) = .ok (toJList (p :: ps)) := by
    simp only [toJList, List.map, toJPair, unwrapResult]
  simp only [classifyPhase, bind, Except.bind, hunwrap]
  have hiter : pyIter (toJList (p :: ps)) = .ok (toJPair p :: ps.map toJPair) := by
    simp only [toJList, List.map, pyIter]
  simp only [hiter, pyMaxBy_toJPair, getLabel_toJPair, getScore_toJPair, pure, Except.pure]

/-- The element the `max` loop keeps splits the input into a strict
prefix of strictly smaller confidences, itself, and a suffix; and its
confidence dominates every element.  This is exactly first-maximum
selection. -/
theorem maxGoSpec_decomp (ps : List (String × ℚ)) (best : String × ℚ) :
    ∃ pre post, best :: ps = pre ++ maxGoSpec best ps :: post ∧
      (∀ q ∈ pre, q.2 < (maxGoSpec best ps).2) ∧
      (∀ q ∈ best :: ps, q.2 ≤ (maxGoSpec best ps).2) := by
  induction ps generalizing best with
  | nil =>
    exact ⟨[], [], rfl, by simp, by simp [maxGoSpec]⟩
  | cons p ps ih =>
    by_cases h : best.2 < p.2
    · obtain ⟨pre, post, hdec, hpre, hmax⟩ := ih p
      have hple : p.2 ≤ (maxGoSpec p ps).2 := hmax p (by simp)
      refine ⟨best :: pre, post, ?_, ?_, ?_⟩
      · simp only [maxGoSpec, if_pos h]
        rw [List.cons_append, ← hdec]
      · intro q hq
        simp only [maxGoSpec, if_pos h]
        rcases List.mem_cons.mp hq with hq | hq
        · subst hq; exact lt_of_lt_of_le h hple
        · exact hpre q hq
      · intro q hq
        simp only [maxGoSpec, if_pos h]
        rcases List.mem_cons.mp hq with hq | hq
        · subst hq; exact le_of_lt (lt_of_lt_of_le h hple)
        · exact hmax q hq
    · have hple : p.2 ≤ best.2 := le_of_not_lt h
      obtain ⟨pre, post, hdec, hpre, hmax⟩ := ih best
      have hbestle : best.2 ≤ (maxGoSpec best ps).2 := hmax best (by simp)
      cases pre with
      | nil =>
        simp only [List.nil_append, List.cons.injEq] at hdec
        obtain ⟨h1, h2⟩ := hdec
        refine ⟨[], p :: ps, ?_, by simp, ?_⟩
        · simp only [maxGoSpec, if_neg h, List.nil_append, ← h1]
        · intro q hq
          simp only [maxGoSpec, if_neg h]
          rcases List.mem_cons.mp hq with hq | hq
          · subst hq; exact hbestle
          · rcases List.mem_cons.mp hq with hq | hq
            · subst hq; exact le_trans hple hbestle
            · exact hmax q (List.mem_cons_of_mem best hq)
      | cons a pre1 =>
        simp only [List.cons_append, List.cons.injEq] at hdec
        obtain ⟨h1, h2⟩ := hdec
        subst h1
        refine ⟨best :: p :: pre1, post, ?_, ?_, ?_⟩
        · simp only [maxGoSpec, if_neg h, List.cons_append]
          rw [← h2]
        · intro q hq
          have hblt : best.2 < (maxGoSpec best ps).2 :=
            hpre best (List.mem_cons_self best pre1)
          simp only [maxGoSpec, if_neg h]
          rcases List.mem_cons.mp hq with hq | hq
          · subst hq; exact hblt
          · rcases List.mem_cons.mp hq with hq | hq
            · subst hq; exact lt_of_le_of_lt hple hblt
            · exact hpre q (List.mem_cons_of_mem best hq)
        · intro q hq
          simp only [maxGoSpec, if_neg h]
          rcases List.mem_cons.mp hq with hq | hq
          · subst hq; exact hbestle
          · rcases List.mem_cons.mp hq with hq | hq
            · subst hq; exact le_trans hple hbestle
            · exact hmax q (List.mem_cons_of_mem best hq)

/-- C8: on a non-empty well-formed classification result, the pair the
code selects with `max(result, key=lambda x: x['score'])` is one whose
score is maximal, and on exact score ties the pair occurring first in
response order: the selected pair splits the list into a prefix of
pairs with strictly smaller scores, itself, and a suffix, and its score
dominates every pair.  Selection is a pure function of the list, hence
deterministic. -/
theorem C8_dominant_first_max (p : String × ℚ) (ps : List (String × ℚ)) :
    ∃ pre post r, pyMaxBy getScore (toJPair p :: ps.map toJPair) = .ok (toJPair r) ∧
      p :: ps = pre ++ r :: post ∧
      (∀ q ∈ p :: ps, q.2 ≤ r.2) ∧
      (∀ q ∈ pre, q.2 < r.2) := by
  obtain ⟨pre, post, hdec, hpre, hmax⟩ := maxGoSpec_decomp ps p
  exact ⟨pre, post, maxGoSpec p ps, pyMaxBy_toJPair p ps, hdec, hmax, hpre⟩

/-- Witness for C8 at the spec's tie example: on
`[(POSITIVE, 0.6), (NEGATIVE, 0.6)]` the first-listed pair is chosen. -/
theorem C8_dominant_first_max_witness :
    (∃ pre post r,
      pyMaxBy getScore (toJPair ("POSITIVE", mkRat 6 10) ::
          [("NEGATIVE", mkRat 6 10)].map toJPair) = .ok (toJPair r) ∧
      ("POSITIVE", mkRat 6 10) :: [("NEGATIVE", mkRat 6 10)] = pre ++ r :: post ∧
      (∀ q ∈ ("POSITIVE", mkRat 6 10) :: [("NEGATIVE", mkRat 6 10)], q.2 ≤ r.2) ∧
      (∀ q ∈ pre, q.2 < r.2)) ∧
    pyMaxBy getScore [toJPair ("POSITIVE", mkRat 6 10), toJPair ("NEGATIVE", mkRat 6 10)] =
      .ok (toJPair ("POSITIVE", mkRat 6 10)) :=
  ⟨C8_dominant_first_max ("POSITIVE", mkRat 6 10) [("NEGATIVE", mkRat 6 10)], rfl⟩

/-- When validation passes, the key is present, and the first network
outcome is a 200 response whose payload classifies successfully, the
handler returns 200 with the classification and a storage status that
depends only on the storage outcomes; the inserted document carries the
dominant label and the signed score. -/
theorem submit_entry_classified (k s text0 : String) (hs : s ≠ "")
    (uri : Option String) (dbc dbi : Except String Unit) (rest : List NetResult)
    (bv res lab : JVal) (conf : ℚ) (hb : classifyPhase bv = .ok (res, lab, conf)) :
    submit_entry ⟨some k, uri, .resp ⟨200, text0, .ok bv⟩ :: rest, dbc, dbi⟩ (some s) =
      match uri with
      | none => ⟨200, .classification res "not_stored", 1, 0, 0, none⟩
      | some _ =>
        match dbc with
        | .error _ => ⟨200, .classification res "not_stored", 1, 0, 0, none⟩
        | .ok _ =>
          match dbi with
          | .error _ => ⟨200, .classification res "not_stored", 1, 1, 0, none⟩
          | .ok _ => ⟨200, .classification res "stored", 1, 1, 1,
              some ⟨s, lab, if isPositiveLabel lab then conf else -conf⟩⟩ := by
  simp only [submit_entry, if_neg hs, List.head?, hb]
  norm_num

/-- C7: for a non-empty well-formed classification on the all-success
storage path, the document stored by `submit` carries the dominant
label (first pair of maximal score) and a signed score equal to the
dominant confidence when that label is POSITIVE and to its negation
otherwise, so for confidences in `[0, 1]` the stored score's sign is
consistent with the label. -/
theorem C7_signed_score (k u text0 s : String) (hs : s ≠ "")
    (p : String × ℚ) (ps : List (String × ℚ)) :
    ∃ pre post r, p :: ps = pre ++ r :: post ∧ (∀ q ∈ pre, q.2 < r.2) ∧
      (∀ q ∈ p :: ps, q.2 ≤ r.2) ∧
      (submit_entry ⟨some k, some u, [.resp ⟨200, text0, .ok (toJList (p :: ps))⟩],
          .ok (), .ok ()⟩ (some s)).inserted =
        some ⟨s, .jstr r.1, if r.1 = "POSITIVE" then r.2 else -r.2⟩ ∧
      (0 ≤ r.2 →
        (r.1 = "POSITIVE" → 0 ≤ (if r.1 = "POSITIVE" then r.2 else -r.2)) ∧
        (r.1 ≠ "POSITIVE" → (if r.1 = "POSITIVE" then r.2 else -r.2) ≤ 0)) := by
  obtain ⟨pre, post, hdec, hpre, hmax⟩ := maxGoSpec_decomp ps p
  refine ⟨pre, post, maxGoSpec p ps, hdec, hpre, hmax, ?_, ?_⟩
  · rw [submit_entry_classified k s text0 hs (some u) (.ok ()) (.ok ())
      [] (toJList (p :: ps)) (toJList (p :: ps)) (.jstr (maxGoSpec p ps).1)
      (maxGoSpec p ps).2 (classifyPhase_toJList p ps)]
    simp only [isPositiveLabel, beq_iff_eq]
  · intro h0
    constructor
    · intro hp; rw [if_pos hp]; exact h0
    · intro hp; rw [if_neg hp]; exact neg_nonpos.mpr h0

/-- Witness for C7 at the spec's sign examples: NEGATIVE with
confidence 0.91 dominant over POSITIVE 0.09 stores score -0.91. -/
theorem C7_signed_score_witness :
    (∃ pre post r,
      ("NEGATIVE", mkRat 91 100) :: [("POSITIVE", mkRat 9 100)] = pre ++ r :: post ∧
      (∀ q ∈ pre, q.2 < r.2) ∧
      (∀ q ∈ ("NEGATIVE", mkRat 91 100) :: [("POSITIVE", mkRat 9 100)], q.2 ≤ r.2) ∧
      (submit_entry ⟨some "key", some "mongo", [.resp ⟨200, "ok",
          .ok (toJList (("NEGATIVE", mkRat 91 100) :: [("POSITIVE", mkRat 9 100)]))⟩],
          .ok (), .ok ()⟩ (some "bad day")).inserted =
        some ⟨"bad day", .jstr r.1, if r.1 = "POSITIVE" then r.2 else -r.2⟩ ∧
      (0 ≤ r.2 →
        (r.1 = "POSITIVE" → 0 ≤ (if r.1 = "POSITIVE" then r.2 else -r.2)) ∧
        (r.1 ≠ "POSITIVE" → (if r.1 = "POSITIVE" then r.2 else -r.2) ≤ 0))) ∧
    (submit_entry ⟨some "key", some "mongo", [.resp ⟨200, "ok",
        .ok (toJList [("NEGATIVE", mkRat 91 100), ("POSITIVE", mkRat 9 100)])⟩],
        .ok (), .ok ()⟩ (some "bad day")).inserted =
      some ⟨"bad day", .jstr "NEGATIVE", -(mkRat 91 100)⟩ :=
  ⟨C7_signed_score "key" "mongo" "ok" "bad day" (by decide)
      ("NEGATIVE", mkRat 91 100) [("POSITIVE", mkRat 9 100)], rfl⟩

/-- The handler makes at most one upstream classifier call, on every
input and environment. -/
theorem submit_entry_calls_le_one (env : SubmitEnv) (entry : Option String) :
    (submit_entry env entry).hfCalls ≤ 1 := by
  unfold submit_entry
  repeat' split
  all_goals simp

/-- C1 (amended): the classifier call is made at most once per
submission — there is no retry loop around it.  A non-200 status, 429
included, surfaces immediately as an upstream error response carrying
that status after exactly one call, and a transport failure surfaces as
a generic 500 after exactly one call; no ExhaustedRetries outcome
exists. -/
theorem C1_single_attempt_no_retry :
    (∀ (env : SubmitEnv) (entry : Option String), (submit_entry env entry).hfCalls ≤ 1) ∧
    (∀ (k s text0 : String), s ≠ "" → ∀ st : Nat, st ≠ 200 →
      ∀ (bj : Except String JVal) (uri : Option String) (dbc dbi : Except String Unit)
        (rest : List NetResult),
        submit_entry ⟨some k, uri, .resp ⟨st, text0, bj⟩ :: rest, dbc, dbi⟩ (some s) =
          ⟨st, .errorMsg ("Hugging Face API error: " ++ text0), 1, 0, 0, none⟩) ∧
    (∀ (k s m : String), s ≠ "" → ∀ (uri : Option String) (dbc dbi : Except String Unit)
        (rest : List NetResult),
        submit_entry ⟨some k, uri, .transportError m :: rest, dbc, dbi⟩ (some s) =
          ⟨500, .errorMsg m, 1, 0, 0, none⟩) := by
  refine ⟨submit_entry_calls_le_one, ?_, ?_⟩
  · intro k s text0 hs st hst bj uri dbc dbi rest
    simp only [submit_entry, if_neg hs, List.head?]
    rw [if_pos hst]
  · intro k s m hs uri dbc dbi rest
    simp only [submit_entry, if_neg hs, List.head?]

/-- Witness for C1 at a concrete 429: one call, immediate surfacing. -/
theorem C1_single_attempt_no_retry_witness :
    submit_entry ⟨some "key", some "mongo",
        [.resp ⟨429, "rate limited", .ok (.jstr "rate limited")⟩], .ok (), .ok ()⟩
        (some "good day") =
      ⟨429, .errorMsg "Hugging Face API error: rate limited", 1, 0, 0, none⟩ :=
  C1_single_attempt_no_retry.2.1 "key" "good day" "rate limited" (by decide) 429 (by decide)
    (.ok (.jstr "rate limited")) (some "mongo") (.ok ()) (.ok ()) []

/-- C1 counterexample: with 429 responses queued for attempts 1 and 2
and a 200 with a valid payload queued for attempt 3 — the claim's
retry-budget scenario — the code surfaces the 429 at once after exactly
one upstream call instead of succeeding on attempt 3. -/
theorem C1_counterexample :
    submit_entry ⟨some "key", some "mongo",
        [.resp ⟨429, "rate limited", .ok (.jstr "rate limited")⟩,
         .resp ⟨429, "rate limited", .ok (.jstr "rate limited")⟩,
         .resp ⟨200, "ok", .ok (toJList [("POSITIVE", mkRat 83 100),
            ("NEGATIVE", mkRat 17 100)])⟩],
        .ok (), .ok ()⟩ (some "good day") =
      ⟨429, .errorMsg "Hugging Face API error: rate limited", 1, 0, 0, none⟩ := rfl

/-- C2: when validation passes and classification succeeds, submit
answers 200 carrying the classification whatever the persistence
outcome — `storage_status` is `stored` exactly on the all-success
storage path and `not_stored` when storage is unconfigured or the
connect or insert fails — and a non-200 response can only come from
validation, a missing key, or a classifier call/parse failure. -/
theorem C2_storage_never_fails_submit :
    (∀ (k s text0 : String), s ≠ "" →
      ∀ (uri : Option String) (dbc dbi : Except String Unit) (rest : List NetResult)
        (bv res lab : JVal) (conf : ℚ),
        classifyPhase bv = .ok (res, lab, conf) →
        (submit_entry ⟨some k, uri, .resp ⟨200, text0, .ok bv⟩ :: rest, dbc, dbi⟩
            (some s)).status = 200 ∧
        ((uri = none ∨ (∃ e, dbc = .error e) ∨ (∃ e, dbi = .error e)) →
          (submit_entry ⟨some k, uri, .resp ⟨200, text0, .ok bv⟩ :: rest, dbc, dbi⟩
              (some s)).body = .classification res "not_stored") ∧
        (uri ≠ none → dbc = .ok () → dbi = .ok () →
          (submit_entry ⟨some k, uri, .resp ⟨200, text0, .ok bv⟩ :: rest, dbc, dbi⟩
              (some s)).body = .classification res "stored")) ∧
    (∀ (env : SubmitEnv) (entry : Option String),
      (submit_entry env entry).status ≠ 200 →
      entry = none ∨ entry = some "" ∨ env.hfApiKey = none ∨
      env.hfNet.head? = none ∨ (∃ m, env.hfNet.head? = some (.transportError m)) ∨
      (∃ r, env.hfNet.head? = some (.resp r) ∧
        (r.status ≠ 200 ∨ (∃ e, r.body = .error e) ∨
          (∃ bv e, r.body = .ok bv ∧ classifyPhase bv = .error e)))) := by
  constructor
  · intro k s text0 hs uri dbc dbi rest bv res lab conf hb
    rw [submit_entry_classified k s text0 hs uri dbc dbi rest bv res lab conf hb]
    refine ⟨?_, ?_, ?_⟩
    · rcases uri with _ | u
      · rfl
      · rcases dbc with e | x
        · rfl
        · rcases dbi with e | x <;> rfl
    · rintro (h | ⟨e, h⟩ | ⟨e, h⟩)
      · subst h; rfl
      · subst h
        rcases uri with _ | u <;> rfl
      · subst h
        rcases uri with _ | u
        · rfl
        · rcases dbc with e2 | x <;> rfl
    · intro hu h1 h2
      subst h1; subst h2
      rcases uri with _ | u
      · exact absurd rfl hu
      · rfl
  · intro env entry hne
    obtain ⟨key, uri, net, dbc, dbi⟩ := env
    cases entry with
    | none => exact Or.inl rfl
    | some s =>
      by_cases hs : s = ""
      · exact Or.inr (Or.inl (by rw [hs]))
      · cases key with
        | none => exact Or.inr (Or.inr (Or.inl rfl))
        | some k =>
          cases net with
          | nil => exact Or.inr (Or.inr (Or.inr (Or.inl rfl)))
          | cons n rest =>
            cases n with
            | transportError m =>
              exact Or.inr (Or.inr (Or.inr (Or.inr (Or.inl ⟨m, rfl⟩))))
            | resp r =>
              refine Or.inr (Or.inr (Or.inr (Or.inr (Or.inr ⟨r, rfl, ?_⟩))))
              by_cases hst : r.status = 200
              · right
                obtain ⟨st, tx, bd⟩ := r
                simp only at hst
                subst hst
                cases bd with
                | error e => exact Or.inl ⟨e, rfl⟩
                | ok bv =>
                  refine Or.inr ⟨bv, ?_⟩
                  cases hcp : classifyPhase bv with
                  | error e => exact ⟨e, rfl, rfl⟩
                  | ok t =>
                    obtain ⟨res, lab, conf⟩ := t
                    exfalso
                    rw [submit_entry_classified k s tx hs uri dbc dbi rest bv res lab conf hcp]
                      at hne
                    rcases uri with _ | u
                    · exact absurd rfl hne
                    · rcases dbc with e | x
                      · exact absurd rfl hne
                      · rcases dbi with e | x <;> exact absurd rfl hne
              · exact Or.inl hst

/-- Witness for C2 at the spec's degraded-storage example: storage
configured but unreachable, `submit("good day")` still returns 200 with
the classification and `storage_status = "not_stored"`. -/
theorem C2_storage_never_fails_submit_witness :
    (submit_entry ⟨some "key", some "mongo",
        [.resp ⟨200, "ok", .ok (toJList [("POSITIVE", mkRat 83 100)])⟩],
        .error "storage unreachable", .ok ()⟩ (some "good day")).status = 200 ∧
    ((some "mongo" = (none : Option String) ∨
        (∃ e, (Except.error "storage unreachable" : Except String Unit) = .error e) ∨
        (∃ e, (Except.ok () : Except String Unit) = .error e)) →
      (submit_entry ⟨some "key", some "mongo",
          [.resp ⟨200, "ok", .ok (toJList [("POSITIVE", mkRat 83 100)])⟩],
          .error "storage unreachable", .ok ()⟩ (some "good day")).body =
        .classification (toJList [("POSITIVE", mkRat 83 100)]) "not_stored") ∧
    (some "mongo" ≠ (none : Option String) →
      (Except.error "storage unreachable" : Except String Unit) = .ok () →
      (Except.ok () : Except String Unit) = .ok () →
      (submit_entry ⟨some "key", some "mongo",
          [.resp ⟨200, "ok", .ok (toJList [("POSITIVE", mkRat 83 100)])⟩],
          .error "storage unreachable", .ok ()⟩ (some "good day")).body =
        .classification (toJList [("POSITIVE", mkRat 83 100)]) "stored") :=
  C2_storage_never_fails_submit.1 "key" "good day" "ok" (by decide) (some "mongo")
    (.error "storage unreachable") (.ok ()) [] (toJList [("POSITIVE", mkRat 83 100)])
    (toJList [("POSITIVE", mkRat 83 100)]) (.jstr "POSITIVE") (mkRat 83 100)
    (classifyPhase_toJList ("POSITIVE", mkRat 83 100) [])

/-- C3 (amended): submit answers the 400 validation error with zero
classifier calls exactly on the falsy entries — an absent entry or the
empty string. -/
theorem C3_falsy_rejected_before_call (env : SubmitEnv) (entry : Option String)
    (h : entry = none ∨ entry = some "") :
    submit_entry env entry = ⟨400, .errorMsg "No entry provided", 0, 0, 0, none⟩ := by
  rcases h with h | h
  · subst h; rfl
  · subst h; simp [submit_entry]

/-- Witness for C3 at an absent entry. -/
theorem C3_falsy_rejected_before_call_witness :
    submit_entry ⟨some "key", some "mongo",
        [.resp ⟨200, "ok", .ok (toJList [("POSITIVE", mkRat 83 100)])⟩], .ok (), .ok ()⟩
        none =
      ⟨400, .errorMsg "No entry provided", 0, 0, 0, none⟩ :=
  C3_falsy_rejected_before_call _ none (Or.inl rfl)

/-- C3 counterexample: a whitespace-only entry is not rejected — the
match `if not entry` is false on the truthy string consisting of one
space, so the classifier is called (one upstream call) and the request
succeeds, where the claim demands a validation error and no network
call. -/
theorem C3_counterexample :
    submit_entry ⟨some "key", none,
        [.resp ⟨200, "ok", .ok (toJList [("POSITIVE", mkRat 83 100)])⟩], .ok (), .ok ()⟩
        (some " ") =
      ⟨200, .classification (toJList [("POSITIVE", mkRat 83 100)]) "not_stored",
        1, 0, 0, none⟩ := rfl

/-- C4 (amended): the health report answers status `degraded` with
database `not_configured` and HTTP 200 exactly when no storage target
is configured; `healthy` with HTTP 200 exactly when connect and the
dbstats read both succeed; and `unhealthy` with HTTP 500 exactly when
storage is configured but connect or the read fails. -/
theorem C4_health_statuses (uri : Option String) (conn stats : Except String Unit) :
    ((health_check uri conn stats).statusField = "degraded" ∧
      (health_check uri conn stats).databaseField = "not_configured" ∧
      (health_check uri conn stats).httpStatus = 200 ↔ uri = none) ∧
    ((health_check uri conn stats).statusField = "healthy" ∧
      (health_check uri conn stats).httpStatus = 200 ↔
      uri ≠ none ∧ conn = .ok () ∧ stats = .ok ()) ∧
    ((health_check uri conn stats).statusField = "unhealthy" ∧
      (health_check uri conn stats).httpStatus = 500 ↔
      uri ≠ none ∧ (conn ≠ .ok () ∨ stats ≠ .ok ())) := by
  rcases uri with _ | u <;> rcases conn with e | x <;> rcases stats with e2 | y <;>
    simp [health_check]

/-- Witness for C4 on the degraded path: configured storage with a
failing connect reports unhealthy/500. -/
theorem C4_health_statuses_witness :
    ((health_check (some "mongo") (.error "boom") (.ok ())).statusField = "degraded" ∧
      (health_check (some "mongo") (.error "boom") (.ok ())).databaseField =
        "not_configured" ∧
      (health_check (some "mongo") (.error "boom") (.ok ())).httpStatus = 200 ↔
      some "mongo" = (none : Option String)) ∧
    ((health_check (some "mongo") (.error "boom") (.ok ())).statusField = "healthy" ∧
      (health_check (some "mongo") (.error "boom") (.ok ())).httpStatus = 200 ↔
      some "mongo" ≠ (none : Option String) ∧
        (Except.error "boom" : Except String Unit) = .ok () ∧
        (Except.ok () : Except String Unit) = .ok ()) ∧
    ((health_check (some "mongo") (.error "boom") (.ok ())).statusField = "unhealthy" ∧
      (health_check (some "mongo") (.error "boom") (.ok ())).httpStatus = 500 ↔
      some "mongo" ≠ (none : Option String) ∧
        ((Except.error "boom" : Except String Unit) ≠ .ok () ∨
          (Except.ok () : Except String Unit) ≠ .ok ())) :=
  C4_health_statuses (some "mongo") (.error "boom") (.ok ())

/-- C4 counterexample: with no storage configured the handler reports
status `degraded` (not `unconfigured`), and with storage configured but
connect failing it reports `unhealthy` with HTTP 500, not `degraded`
with HTTP 200 as the claim requires. -/
theorem C4_counterexample :
    health_check none (.ok ()) (.ok ()) = ⟨200, "degraded", "not_configured", 0, 0⟩ ∧
    "degraded" ≠ "unconfigured" ∧
    health_check (some "mongo") (.error "boom") (.ok ()) =
      ⟨500, "unhealthy", "disconnected", 0, 0⟩ ∧
    (500 ≠ 200 ∧ "unhealthy" ≠ "degraded") :=
  ⟨rfl, by decide, rfl, by decide, by decide⟩

/-- C5 (amended): malformed classifier response shapes have no
dedicated InvalidResponse category: the exception each raises is caught
by the blanket handler and returned as a generic HTTP 500 whose body
carries only the exception message — the empty list raises IndexError
at the unwrap subscript, an element missing the `score` key raises
KeyError inside `max`, and a non-list, non-iterable top level raises
TypeError. -/
theorem C5_malformed_generic_500 :
    (∀ (k s : String), s ≠ "" →
      ∀ (uri : Option String) (dbc dbi : Except String Unit) (rest : List NetResult)
        (text0 : String),
        submit_entry ⟨some k, uri, .resp ⟨200, text0, .ok (.jlist [])⟩ :: rest, dbc, dbi⟩
            (some s) =
          ⟨500, .errorMsg "IndexError: list index out of range", 1, 0, 0, none⟩) ∧
    (∀ (k s : String), s ≠ "" →
      ∀ (uri : Option String) (dbc dbi : Except String Unit) (rest : List NetResult)
        (text0 : String) (v : JVal),
        submit_entry ⟨some k, uri,
            .resp ⟨200, text0, .ok (.jlist [.jobj [("label", v)]])⟩ :: rest, dbc, dbi⟩
            (some s) =
          ⟨500, .errorMsg "KeyError: score", 1, 0, 0, none⟩) ∧
    (∀ (k s : String), s ≠ "" →
      ∀ (uri : Option String) (dbc dbi : Except String Unit) (rest : List NetResult)
        (text0 : String) (q : ℚ),
        submit_entry ⟨some k, uri, .resp ⟨200, text0, .ok (.jnum q)⟩ :: rest, dbc, dbi⟩
            (some s) =
          ⟨500, .errorMsg "TypeError: object is not iterable", 1, 0, 0, none⟩) := by
  refine ⟨?_, ?_, ?_⟩ <;>
    · intro k s hs uri dbc dbi rest text0
      try intro w
      simp only [submit_entry, if_neg hs, List.head?]
      rw [if_neg (show ¬ (200 ≠ 200) by norm_num)]
      rfl

/-- Witness for C5 at the spec's empty-list example. -/
theorem C5_malformed_generic_500_witness :
    submit_entry ⟨some "key", some "mongo", [.resp ⟨200, "[]", .ok (.jlist [])⟩],
        .ok (), .ok ()⟩ (some "good day") =
      ⟨500, .errorMsg "IndexError: list index out of range", 1, 0, 0, none⟩ :=
  C5_malformed_generic_500.1 "key" "good day" (by decide) (some "mongo") (.ok ()) (.ok ())
    [] "[]"

/-- C5 counterexample: two distinct malformed payloads (an object
missing the `score` key with label POSITIVE versus NEGATIVE) produce
identical generic 500 responses, so the failure carries no raw payload
and no InvalidResponse category distinguishing it from any other
exception. -/
theorem C5_counterexample :
    submit_entry ⟨some "key", some "mongo",
        [.resp ⟨200, "ok", .ok (.jlist [.jobj [("label", .jstr "POSITIVE")]])⟩],
        .ok (), .ok ()⟩ (some "good day") =
      submit_entry ⟨some "key", some "mongo",
        [.resp ⟨200, "ok", .ok (.jlist [.jobj [("label", .jstr "NEGATIVE")]])⟩],
        .ok (), .ok ()⟩ (some "good day") ∧
    (JVal.jlist [.jobj [("label", .jstr "POSITIVE")]]) ≠
      (JVal.jlist [.jobj [("label", .jstr "NEGATIVE")]]) :=
  ⟨rfl, by simp⟩

/-- The strategy loop raises exactly when every strategy fails. -/
theorem connectLoop_error_iff (strategies : List (Except String Nat)) :
    (∃ e, (connectLoop strategies).result = .error e) ↔
      ∀ m ∈ strategies, ∃ e, m = .error e := by
  induction strategies with
  | nil => simp [connectLoop]
  | cons m rest ih =>
    cases m with
    | ok c => simp [connectLoop]
    | error e => simp [connectLoop, ih]

/-- C6 (amended): `get_db_connection` invokes the strategies in
declared order and returns the first whose handshake and ping succeed,
invoking none after it; it fails if and only if every strategy fails,
raising the fixed-message ConnectionError — the per-strategy failure
reasons are only logged as warnings, not aggregated into the raised
error. -/
theorem C6_first_success_order :
    (∀ (uri : String) (pre : List String) (c : Nat) (rest : List (Except String Nat)),
      get_db_connection (some uri) (pre.map Except.error ++ .ok c :: rest) =
        ⟨.ok c, pre.map (fun e => "Connection method failed: " ++ e), pre.length + 1⟩) ∧
    (∀ (uri : String) (reasons : List String),
      get_db_connection (some uri) (reasons.map Except.error) =
        ⟨.error "All connection methods failed",
          reasons.map (fun e => "Connection method failed: " ++ e), reasons.length⟩) ∧
    (∀ (uri : String) (strategies : List (Except String Nat)),
      (∃ e, (get_db_connection (some uri) strategies).result = .error e) ↔
        ∀ m ∈ strategies, ∃ e, m = .error e) := by
  refine ⟨?_, ?_, ?_⟩
  · intro uri pre c rest
    simp only [get_db_connection]
    induction pre with
    | nil => rfl
    | cons e pre ih => simp [connectLoop, ih]
  · intro uri reasons
    simp only [get_db_connection]
    induction reasons with
    | nil => rfl
    | cons e reasons ih => simp [connectLoop, ih]
  · intro uri strategies
    simp only [get_db_connection]
    exact connectLoop_error_iff strategies

/-- Witness for C6: one failing strategy, then a success, then another
strategy; the success is returned, only two strategies are invoked, and
the one failure is logged. -/
theorem C6_first_success_order_witness :
    get_db_connection (some "mongo")
        (["tls handshake refused"].map Except.error ++ .ok 7 :: [.error "never tried"]) =
      ⟨.ok 7, ["tls handshake refused"].map (fun e => "Connection method failed: " ++ e),
        (["tls handshake refused"] : List String).length + 1⟩ :=
  C6_first_success_order.1 "mongo" ["tls handshake refused"] 7 [.error "never tried"]

/-- C6 counterexample: when all strategies fail, the raised failure is
the same fixed-message ConnectionError whatever the reasons were, so
the failure does not aggregate the per-strategy reasons. -/
theorem C6_counterexample :
    (get_db_connection (some "mongo") [.error "tls handshake refused"]).result =
      (get_db_connection (some "mongo") [.error "dns resolution failed"]).result ∧
    "tls handshake refused" ≠ "dns resolution failed" ∧
    (get_db_connection (some "mongo") [.error "tls handshake refused"]).result =
      .error "All connection methods failed" :=
  ⟨rfl, by decide, rfl⟩

/-- C9 (amended): every operation opens at most one connection and
closes exactly as many as it opened on its non-exception paths; but
when the step between acquisition and `close()` raises — the insert in
submit, the find in entries — the close is skipped and the acquired
connection is left unreleased. -/
theorem C9_close_skipped_on_error :
    (∀ (env : SubmitEnv) (entry : Option String),
      ((submit_entry env entry).dbOpened = (submit_entry env entry).dbClosed ∧
        (submit_entry env entry).dbOpened ≤ 1) ∨
      ((submit_entry env entry).dbOpened = 1 ∧ (submit_entry env entry).dbClosed = 0 ∧
        ∃ e, env.dbInsert = .error e)) ∧
    (∀ env : EntriesEnv,
      ((get_entries env).dbOpened = (get_entries env).dbClosed ∧
        (get_entries env).dbOpened ≤ 1) ∨
      ((get_entries env).dbOpened = 1 ∧ (get_entries env).dbClosed = 0 ∧
        ∃ e, env.dbFind = .error e)) := by
  constructor
  · intro env entry
    unfold submit_entry
    repeat' split
    all_goals simp_all
  · intro env
    obtain ⟨uri, dbc, dbf⟩ := env
    rcases uri with _ | u
    · exact Or.inl ⟨rfl, Nat.zero_le 1⟩
    · rcases dbc with e | x
      · exact Or.inl ⟨rfl, Nat.zero_le 1⟩
      · rcases dbf with e | stored
        · exact Or.inr ⟨rfl, rfl, e, rfl⟩
        · exact Or.inl ⟨rfl, Nat.le_refl 1⟩

/-- Witness for C9: a submit whose insert fails leaves the balance
broken, a read whose find fails likewise. -/
theorem C9_close_skipped_on_error_witness :
    (((submit_entry ⟨some "key", some "mongo",
        [.resp ⟨200, "ok", .ok (toJList [("POSITIVE", mkRat 83 100)])⟩],
        .ok (), .error "write failed"⟩ (some "good day")).dbOpened =
      (submit_entry ⟨some "key", some "mongo",
        [.resp ⟨200, "ok", .ok (toJList [("POSITIVE", mkRat 83 100)])⟩],
        .ok (), .error "write failed"⟩ (some "good day")).dbClosed ∧
      (submit_entry ⟨some "key", some "mongo",
        [.resp ⟨200, "ok", .ok (toJList [("POSITIVE", mkRat 83 100)])⟩],
        .ok (), .error "write failed"⟩ (some "good day")).dbOpened ≤ 1) ∨
     ((submit_entry ⟨some "key", some "mongo",
        [.resp ⟨200, "ok", .ok (toJList [("POSITIVE", mkRat 83 100)])⟩],
        .ok (), .error "write failed"⟩ (some "good day")).dbOpened = 1 ∧
      (submit_entry ⟨some "key", some "mongo",
        [.resp ⟨200, "ok", .ok (toJList [("POSITIVE", mkRat 83 100)])⟩],
        .ok (), .error "write failed"⟩ (some "good day")).dbClosed = 0 ∧
      ∃ e, (SubmitEnv.mk (some "key") (some "mongo")
        [.resp ⟨200, "ok", .ok (toJList [("POSITIVE", mkRat 83 100)])⟩]
        (.ok ()) (.error "write failed")).dbInsert = .error e)) :=
  C9_close_skipped_on_error.1
    ⟨some "key", some "mongo", [.resp ⟨200, "ok", .ok (toJList [("POSITIVE", mkRat 83 100)])⟩],
      .ok (), .error "write failed"⟩ (some "good day")

/-- C9 counterexample: on the write path a successful connect followed
by a failing insert leaves the connection unclosed, and on the read
path a successful connect followed by a failing find does the same —
refuting release on every exit path. -/
theorem C9_counterexample :
    (submit_entry ⟨some "key", some "mongo",
        [.resp ⟨200, "ok", .ok (toJList [("POSITIVE", mkRat 83 100)])⟩],
        .ok (), .error "write failed"⟩ (some "good day")).dbOpened = 1 ∧
    (submit_entry ⟨some "key", some "mongo",
        [.resp ⟨200, "ok", .ok (toJList [("POSITIVE", mkRat 83 100)])⟩],
        .ok (), .error "write failed"⟩ (some "good day")).dbClosed = 0 ∧
    (get_entries ⟨some "mongo", .ok (), .error "read failed"⟩).dbOpened = 1 ∧
    (get_entries ⟨some "mongo", .ok (), .error "read failed"⟩).dbClosed = 0 :=
  ⟨rfl, rfl, rfl, rfl⟩

instance : IsTotal StoredRow rowLe :=
  ⟨fun a b => le_total a.timestamp.fieldList b.timestamp.fieldList⟩

instance : IsTrans StoredRow rowLe :=
  ⟨fun _ _ _ h1 h2 => le_trans h1 h2⟩

/-- C10: on a reachable store, `/entries` answers 200 with a body whose
rows are a permutation of the store ordered ascending by timestamp,
whose `labels` are exactly the rows' timestamps formatted
"%Y-%m-%d %H:%M:%S" (timestamp strings, not sentiment labels), whose
`scores` are exactly the rows' signed scores in the same order, and
whose `count` equals the number of stored entries — so the two lists
and the count all have the same length. -/
theorem C10_entries_shape (uri : String) (stored : List StoredRow) :
    ∃ rows : List StoredRow,
      rows.Perm stored ∧ List.Sorted rowLe rows ∧ rows.length = stored.length ∧
      get_entries ⟨some uri, .ok (), .ok stored⟩ =
        ⟨200, .data (rows.map (fun r => strftimeYmdHMS r.timestamp))
          (rows.map StoredRow.score) stored.length, 1, 1⟩ ∧
      (rows.map (fun r => strftimeYmdHMS r.timestamp)).length = stored.length ∧
      (rows.map StoredRow.score).length = stored.length := by
  refine ⟨List.insertionSort rowLe stored, List.perm_insertionSort rowLe stored,
    List.sorted_insertionSort rowLe stored, List.length_insertionSort rowLe stored,
    ?_, ?_, ?_⟩
  · simp only [get_entries, List.length_insertionSort]
  · simp [List.length_insertionSort]
  · simp [List.length_insertionSort]

/-- Witness for C10 on a two-entry store listed out of order: the
response sorts it ascending and formats the timestamps. -/
theorem C10_entries_shape_witness :
    (∃ rows : List StoredRow,
      rows.Perm [⟨⟨2024, 5, 3, 10, 0, 0⟩, mkRat 1 2⟩, ⟨⟨2024, 5, 3, 9, 59, 59⟩, mkRat 1 4⟩] ∧
      List.Sorted rowLe rows ∧
      rows.length = ([⟨⟨2024, 5, 3, 10, 0, 0⟩, mkRat 1 2⟩,
        ⟨⟨2024, 5, 3, 9, 59, 59⟩, mkRat 1 4⟩] : List StoredRow).length ∧
      get_entries ⟨some "mongo", .ok (),
          .ok [⟨⟨2024, 5, 3, 10, 0, 0⟩, mkRat 1 2⟩, ⟨⟨2024, 5, 3, 9, 59, 59⟩, mkRat 1 4⟩]⟩ =
        ⟨200, .data (rows.map (fun r => strftimeYmdHMS r.timestamp))
          (rows.map StoredRow.score)
          ([⟨⟨2024, 5, 3, 10, 0, 0⟩, mkRat 1 2⟩,
            ⟨⟨2024, 5, 3, 9, 59, 59⟩, mkRat 1 4⟩] : List StoredRow).length, 1, 1⟩ ∧
      (rows.map (fun r => strftimeYmdHMS r.timestamp)).length =
        ([⟨⟨2024, 5, 3, 10, 0, 0⟩, mkRat 1 2⟩,
          ⟨⟨2024, 5, 3, 9, 59, 59⟩, mkRat 1 4⟩] : List StoredRow).length ∧
      (rows.map StoredRow.score).length =
        ([⟨⟨2024, 5, 3, 10, 0, 0⟩, mkRat 1 2⟩,
          ⟨⟨2024, 5, 3, 9, 59, 59⟩, mkRat 1 4⟩] : List StoredRow).length) ∧
    get_entries ⟨some "mongo", .ok (),
        .ok [⟨⟨2024, 5, 3, 10, 0, 0⟩, mkRat 1 2⟩, ⟨⟨2024, 5, 3, 9, 59, 59⟩, mkRat 1 4⟩]⟩ =
      ⟨200, .data ["2024-05-03 09:59:59", "2024-05-03 10:00:00"]
        [mkRat 1 4, mkRat 1 2] 2, 1, 1⟩ :=
  ⟨C10_entries_shape "mongo"
      [⟨⟨2024, 5, 3, 10, 0, 0⟩, mkRat 1 2⟩, ⟨⟨2024, 5, 3, 9, 59, 59⟩, mkRat 1 4⟩], rfl⟩

end MoodJournal
